import Mathlib

/-!
Verification model of the `tsv` wrapper class (a single-file convenience layer
over Python's `csv` module).  The definitions below are a shallow embedding of
`src/__init__.py`: each definition mirrors one method or code block of the
source, with the external `csv`-library behaviour (field splitting, DictReader
and DictWriter row shaping) modelled from its documented semantics.  Machine
state that the wrapper threads through the `csv` objects (remaining rows,
`fieldnames`, `line_num`) is passed explicitly.

Python exceptions are modelled by an explicit error type; a `sys.exit` call is
a distinguished outcome (`ReadEnd.exit`), separate from an exception
propagating to the caller (`ReadEnd.exc`).
-/

namespace Tsv

/-- Python exception kinds that the wrapper can surface.  `wrapperError` is the
module's own `Error(Exception)` class. -/
inductive PyExc where
  | wrapperError (msg : String)
  | csvError (msg : String)
  | valueError (msg : String)
  | typeError
  | fileNotFound
  | fileExistsError
  | stopIteration
  | runtimeError
  | indexError
  | keyError
  | attributeError
  deriving DecidableEq, Repr

/-- A csv dialect: delimiter, quote character and line terminator
(`csv.excel_tab` is the default dialect of the wrapper). -/
structure Dialect where
  delimiter : Char
  quotechar : Char
  lineterminator : String
  deriving DecidableEq, Repr

/-- The `excel-tab` dialect: tab delimiter, double-quote, CRLF terminator. -/
def excelTab : Dialect := ⟨'\t', '"', "\r\n"⟩

/-- The state held by a `tsv` instance after `__init__` (lines 114-153 of the
source): source descriptor, existence flag, resolved dialect, header list and
the header-on-first-line flag.  `headers_process_by` defaults to `None` in the
source and is not exercised by any claim, so it is not carried here. -/
structure Session where
  filename : Option String
  fileIsExists : Bool
  text : Option String
  dialect : Dialect
  headers : Option (List String)
  headersIsFirstLine : Bool
  deriving DecidableEq, Repr

/-- Python truthiness of an optional string argument (`if filename and text:`
in the source treats `None` and `""` alike as falsy). -/
def truthyStr : Option String → Bool
  | none => false
  | some s => !(s == "")

/-- `tsv.has_headers` (line 155): `bool(self.headers)` — `None` and the empty
list are both falsy. -/
def hasHeadersB : Option (List String) → Bool
  | none => false
  | some l => !l.isEmpty

/-- Result of `tsv.__init__`: either a constructed session or a raised
exception. -/
inductive InitResult where
  | ok (s : Session)
  | err (e : PyExc)
  deriving DecidableEq, Repr

/-- `tsv.__init__` (lines 114-153).  `fsExists` stands for the answer of
`Path(filename).exists()`.  The `text` argument is modelled as a string (the
`str` branch of the type check on lines 138-144; a non-`str` argument would
raise `TypeError`).  The dialect defaults to `excel-tab`; dialect sniffing
(`dialect=None`) is outside every claim and is not modelled. -/
def tsvInit (filename text : Option String) (fsExists : Bool)
    (headers : Option (List String)) (headersIsFirstLine : Bool) : InitResult :=
  if truthyStr filename && truthyStr text then
    .err (.wrapperError "You must provide \"filename\" or \"text\" only!")
  else if filename.isNone && text.isNone then
    .err (.wrapperError "You did not provide \"filename\" or \"text\"!")
  else
    .ok { filename := filename
          fileIsExists := if text.isSome then true else filename.isSome && fsExists
          text := text
          dialect := excelTab
          headers := headers
          headersIsFirstLine := headersIsFirstLine }

/-- The session produced by `tsv(text=t)` with all other parameters left at
their defaults. -/
def mkTextSession (t : String) : Session :=
  { filename := none
    fileIsExists := true
    text := some t
    dialect := excelTab
    headers := none
    headersIsFirstLine := true }

/-! ### The csv layer (modelled from the external library's semantics)

`csv.reader` turns each physical line into a list of fields; `csv.writer`
serializes a list of fields with minimal quoting and the dialect's line
terminator. -/

/-- Split a character list at every occurrence of a character. -/
def splitCharsOn (c : Char) : List Char → List String
  | [] => [""]
  | x :: xs =>
    let rest := splitCharsOn c xs
    if x = c then "" :: rest
    else
      match rest with
      | [] => [String.mk [x]]
      | r :: rs => String.mk (x :: r.data) :: rs

/-- Split a string at every occurrence of a character. -/
def splitOnChar (c : Char) (s : String) : List String :=
  splitCharsOn c s.data

/-- The lines an `io.StringIO` source yields to `csv.reader`: pieces between
newline characters; a trailing newline does not produce a final empty line. -/
def readerLines (text : String) : List String :=
  let ls := splitOnChar '\n' text
  match ls.getLast? with
  | some "" => ls.dropLast
  | _ => ls

/-- Drop a trailing carriage return (the `\r` of a CRLF terminator is consumed
by the csv parser together with the line break). -/
def stripCR (s : String) : String :=
  match s.data.getLast? with
  | some '\r' => String.mk s.data.dropLast
  | _ => s

/-- Parser state of the csv field-splitting machine: outside quotes, inside a
quoted section, or just after a quote character inside a quoted section (which
decides between a doubled literal quote and the end of the quoted section). -/
inductive PState where
  | normal
  | quoted
  | quoteSeen
  deriving DecidableEq, Repr

/-- Field-splitting state machine of the csv parser (doublequote dialect):
outside quotes a delimiter ends the field and a quote opening an empty field
enters quoted mode; inside quotes a doubled quote is a literal quote and a
single quote leaves quoted mode. -/
def parseFieldsAux (delim quote : Char) : List Char → List Char → PState → List String
  | [], field, _ => [String.mk field.reverse]
  | c :: rest, field, .quoted =>
    if c = quote then parseFieldsAux delim quote rest field .quoteSeen
    else parseFieldsAux delim quote rest (c :: field) .quoted
  | c :: rest, field, .quoteSeen =>
    if c = quote then parseFieldsAux delim quote rest (quote :: field) .quoted
    else if c = delim then String.mk field.reverse :: parseFieldsAux delim quote rest [] .normal
    else parseFieldsAux delim quote rest (c :: field) .normal
  | c :: rest, field, .normal =>
    if c = delim then String.mk field.reverse :: parseFieldsAux delim quote rest [] .normal
    else if c = quote && field.isEmpty then parseFieldsAux delim quote rest field .quoted
    else parseFieldsAux delim quote rest (c :: field) .normal

/-- Split one physical line into fields. -/
def parseFields (d : Dialect) (s : String) : List String :=
  parseFieldsAux d.delimiter d.quotechar s.data [] .normal

/-- `csv.reader` on one line: a blank line yields the empty row `[]`. -/
def csvParseLine (d : Dialect) (line : String) : List String :=
  let l := stripCR line
  if l = "" then [] else parseFields d l

/-- `csv.reader` over an in-memory text: one row per line. -/
def csvReadRows (d : Dialect) (text : String) : List (List String) :=
  (readerLines text).map (csvParseLine d)

/-- A raw row stream as the underlying `csv.reader` delivers it: each `next`
either produces a row or raises a parser-level `csv.Error` (carrying its
message). -/
abbrev RowStream := List (Except String (List String))

/-- Lift parsed text into an error-free raw row stream. -/
def textToStream (d : Dialect) (t : String) : RowStream :=
  (csvReadRows d t).map Except.ok

/-- Does a field need quoting under QUOTE_MINIMAL? -/
def needsQuote (d : Dialect) (f : String) : Bool :=
  f.data.any (fun c => c == d.delimiter || c == d.quotechar || c == '\r' || c == '\n')

/-- Double every quote character in a list of field characters (doublequote
escaping). -/
def escQuoteChars (q : Char) : List Char → List Char
  | [] => []
  | c :: cs => if c = q then c :: c :: escQuoteChars q cs else c :: escQuoteChars q cs

/-- Serialize one field with minimal quoting. -/
def quoteField (d : Dialect) (f : String) : String :=
  if needsQuote d f then
    String.mk (d.quotechar :: escQuoteChars d.quotechar f.data) ++ String.mk [d.quotechar]
  else f

/-- Join strings with a separator (the delimiter between serialized fields). -/
def joinSep (sep : String) : List String → String
  | [] => ""
  | [f] => f
  | f :: fs => f ++ sep ++ joinSep sep fs

/-- `csv.writer.writerow` on a list of fields: delimiter-joined fields followed
by the dialect's line terminator. -/
def writeRow (d : Dialect) (r : List String) : String :=
  joinSep (String.mk [d.delimiter]) (r.map (quoteField d)) ++ d.lineterminator

/-! ### Reading (`tsv.reader`, `tsv._detect_headers`, `tsv.readlines`) -/

/-- A value inside a `DictReader` record: a field string, the overflow list
stored under the `None` restkey when the row is longer than the field names,
or the `None` restval filling a missing field. -/
inductive DVal where
  | s (v : String)
  | rest (l : List String)
  | null
  deriving DecidableEq, Repr

/-- `DictReader` row shaping: `dict(zip(fieldnames, row))`, extra values under
the `None` restkey, missing fieldnames mapped to the `None` restval. -/
def mkDictRow (fns row : List String) : List (Option String × DVal) :=
  (List.zip fns row).map (fun p => (some p.1, DVal.s p.2))
    ++ (if fns.length < row.length then [(none, DVal.rest (row.drop fns.length))] else [])
    ++ (fns.drop row.length).map (fun k => (some k, DVal.null))

/-- A row as `readlines` yields it: an ordered field list (list-mode) or a
`DictReader` record (mapping-mode). -/
inductive RowOut where
  | lst (r : List String)
  | dct (r : List (Option String × DVal))
  deriving DecidableEq, Repr

/-- How a `readlines` iteration ends: normally, with an exception propagating
to the caller, or with `sys.exit` (process termination the caller cannot
intercept as an error result). -/
inductive ReadEnd where
  | normal
  | exc (e : PyExc)
  | exit (msg : String)
  deriving DecidableEq, Repr

/-- `'{}'.format(x)` on the optional filename: `None` prints as `None`. -/
def pyStrOpt : Option String → String
  | none => "None"
  | some s => s

/-- The `sys.exit` message built on line 298 of the source:
`'File read error: file {}, line {}: {}'.format(self.filename, reader.line_num, e)`. -/
def readErrMsg (fname : Option String) (lineNum : Nat) (m : String) : String :=
  "File read error: file " ++ pyStrOpt fname ++ ", line " ++ toString lineNum ++ ": " ++ m

/-- The `while not headers: headers = next(reader)` loop of `_detect_headers`
in list-mode (`csv.reader` has no `fieldnames`): skip falsy (empty) rows; an
exhausted stream raises `StopIteration` out of `next`, a parse failure raises
`csv.Error`.  Returns the adopted row, the remaining stream and the number of
physical lines consumed. -/
def findHeaderRowList : RowStream → Except PyExc (List String × RowStream × Nat)
  | [] => .error .stopIteration
  | .error m :: _ => .error (.csvError m)
  | .ok [] :: rest =>
    match findHeaderRowList rest with
    | .error e => .error e
    | .ok (h, r, n) => .ok (h, r, n + 1)
  | .ok (f :: fs) :: rest => .ok (f :: fs, rest, 1)

/-- `tsv._detect_headers` (lines 172-198) in list-mode: return immediately when
headers are already truthy or when the caller said the first line holds no
headers; otherwise adopt the first non-empty row as the header list.  The
`raise Error('Absolutely empty file - no data lines!')` on line 187 is
unreachable: the while-loop only terminates on a truthy row, and exhaustion
raises `StopIteration` from `next` instead. -/
def detectHeadersList (headers : Option (List String)) (hifl : Bool) (items : RowStream) :
    Except PyExc (Option (List String) × RowStream × Nat) :=
  if hasHeadersB headers then .ok (headers, items, 0)
  else if !hifl then .ok (headers, items, 0)
  else
    match findHeaderRowList items with
    | .error e => .error e
    | .ok (h, rest, n) => .ok (some h, rest, n)

/-- The `DictReader.fieldnames` property: when `_fieldnames` is unset, consume
the first row of the underlying reader as field names (even a blank one);
an empty stream leaves them unset.  A parse failure on that first fetch
propagates as `csv.Error`. -/
def drFieldnames (fns : Option (List String)) (items : RowStream) :
    Except String (Option (List String) × RowStream × Nat) :=
  match fns with
  | some f => .ok (some f, items, 0)
  | none =>
    match items with
    | [] => .ok (none, [], 0)
    | .error m :: _ => .error m
    | .ok r :: rest => .ok (some r, rest, 1)

/-- The `while not headers` loop of `_detect_headers` in mapping-mode, entered
only when the `fieldnames` property came back falsy: `DictReader.__next__`
skips blank rows and shapes the first non-blank one with `mkDictRow`. -/
def detectLoopDict (fns : List String) : RowStream → Except PyExc (List (Option String × DVal) × RowStream × Nat)
  | [] => .error .stopIteration
  | .error m :: _ => .error (.csvError m)
  | .ok [] :: rest =>
    match detectLoopDict fns rest with
    | .error e => .error e
    | .ok (d, r, n) => .ok (d, r, n + 1)
  | .ok (f :: fs) :: rest => .ok (mkDictRow fns (f :: fs), rest, 1)

/-- `tsv._detect_headers` (lines 172-198) in mapping-mode.  Returns the new
header list, the reader's (re)registered `fieldnames`, the remaining stream
and the number of physical lines consumed.  When the `fieldnames` property is
truthy they are adopted directly (line 178-180); otherwise one record is
pulled: it is a dict whose `None` key holds the name list (lines 189-194).
The `keyError` branch is unreachable from `mkDictRow` (a record produced with
empty fieldnames always stores the row under the `None` restkey); it models
the `headers[None]` subscript faithfully. -/
def detectHeadersDict (headers : Option (List String)) (hifl : Bool)
    (fns : Option (List String)) (items : RowStream) :
    Except PyExc (Option (List String) × Option (List String) × RowStream × Nat) :=
  if hasHeadersB headers then .ok (headers, fns, items, 0)
  else if !hifl then .ok (headers, fns, items, 0)
  else
    match drFieldnames fns items with
    | .error m => .error (.csvError m)
    | .ok (some (f :: fs), rest, n) => .ok (some (f :: fs), some (f :: fs), rest, n)
    | .ok (fns2, rest, n) =>
      match detectLoopDict (fns2.getD []) rest with
      | .error e => .error e
      | .ok (d, rest2, n2) =>
        match d.lookup none with
        | some (DVal.rest l) => .ok (some l, some l, rest2, n + n2)
        | _ => .error .keyError

/-- The `for line in reader` loop of `readlines` in list-mode (no `process_by`
supplied): yield every row; a `csv.Error` raised by the reader is caught and
turned into `sys.exit` with the message naming the source and line number. -/
def iterList (fname : Option String) : Nat → RowStream → List RowOut × ReadEnd
  | _, [] => ([], .normal)
  | n, .error m :: _ => ([], .exit (readErrMsg fname (n + 1) m))
  | n, .ok r :: rest =>
    let p := iterList fname (n + 1) rest
    (.lst r :: p.1, p.2)

/-- The `for line in reader` loop of `readlines` in mapping-mode with resolved
field names: `DictReader` skips blank rows and yields shaped records; a
`csv.Error` becomes `sys.exit` as in list-mode. -/
def iterDict (fname : Option String) (fns : List String) : Nat → RowStream → List RowOut × ReadEnd
  | _, [] => ([], .normal)
  | n, .error m :: _ => ([], .exit (readErrMsg fname (n + 1) m))
  | n, .ok [] :: rest => iterDict fname fns (n + 1) rest
  | n, .ok (f :: fs) :: rest =>
    let p := iterDict fname fns (n + 1) rest
    (.dct (mkDictRow fns (f :: fs)) :: p.1, p.2)

/-- `tsv.readlines` (lines 278-298) in list-mode: check the source exists, run
header detection, then iterate.  A `StopIteration` escaping `_detect_headers`
inside the generator body becomes `RuntimeError` (PEP 479). -/
def readlinesList (s : Session) (items : RowStream) : List RowOut × ReadEnd :=
  if !s.fileIsExists then ([], .exc .fileNotFound)
  else
    match detectHeadersList s.headers s.headersIsFirstLine items with
    | .error .stopIteration => ([], .exc .runtimeError)
    | .error e => ([], .exc e)
    | .ok (_, rest, n) => iterList s.filename n rest

/-- `tsv.readlines` (lines 278-298) in mapping-mode.  `tsv.reader` registers
the explicit headers as `DictReader` fieldnames when present (lines 244-245).
When detection leaves fieldnames unresolved (headers unset and
`headers_is_first_line=False`), `DictReader` resolves them from the first
fetched row during iteration. -/
def readlinesDict (s : Session) (items : RowStream) : List RowOut × ReadEnd :=
  if !s.fileIsExists then ([], .exc .fileNotFound)
  else
    let fns0 := if hasHeadersB s.headers then s.headers else none
    match detectHeadersDict s.headers s.headersIsFirstLine fns0 items with
    | .error .stopIteration => ([], .exc .runtimeError)
    | .error e => ([], .exc e)
    | .ok (_, some fns, rest, n) => iterDict s.filename fns n rest
    | .ok (_, none, rest, n) =>
      match rest with
      | [] => ([], .normal)
      | .error m :: _ => ([], .exit (readErrMsg s.filename (n + 1) m))
      | .ok r :: rest2 => iterDict s.filename r (n + 1) rest2

/-- `tsv.readlines` dispatched on the `asdict` flag (the `reader` context
manager builds a `csv.DictReader` or a plain `csv.reader`, lines 247-251). -/
def readlines (s : Session) (asdict : Bool) (items : RowStream) : List RowOut × ReadEnd :=
  if asdict then readlinesDict s items else readlinesList s items

/-! ### Writing (`tsv.writer`, `tsv._detect_headers_before_write`, `tsv.writelines`) -/

/-- A row handed to `writelines`: a list/tuple of fields or a dict (modelled as
an insertion-ordered association list, as a Python dict preserves insertion
order). -/
inductive WRow where
  | lst (r : List String)
  | dct (r : List (String × String))
  deriving DecidableEq, Repr

/-- The `rows` argument of `writelines`: a materialized list/tuple or a
generator (`isinstance(rows, t.Generator)` distinguishes the two in the
source). -/
inductive RowsInput where
  | list (rs : List WRow)
  | gen (rs : List WRow)
  deriving DecidableEq, Repr

/-- The element sequence still to be iterated by the `for line in rows` loop. -/
def rowsList : RowsInput → List WRow
  | .list rs => rs
  | .gen rs => rs

/-- Python truthiness of a row (`if not first_line:`): empty list and empty
dict are falsy. -/
def wrowTruthy : WRow → Bool
  | .lst r => !r.isEmpty
  | .dct r => !r.isEmpty

/-- `tsv._detect_headers_before_write` (lines 200-206): take
`next(rows)` for a generator (consuming the element; an exhausted generator
raises `StopIteration`) or `rows[0]` for a list (an empty list raises
`IndexError`); a non-dict first row raises `ValueError`; otherwise return the
key tuple, the first row, and the rows left for the write loop. -/
def detectHeadersBeforeWrite : RowsInput → Except PyExc (List String × WRow × RowsInput)
  | .gen [] => .error .stopIteration
  | .gen (r :: rs) =>
    match r with
    | .dct m => .ok (m.map Prod.fst, .dct m, .gen rs)
    | .lst _ => .error (.valueError "Can not detect headers because 1st row not a dict, supply headers manually")
  | .list [] => .error .indexError
  | .list (r :: rs) =>
    match r with
    | .dct m => .ok (m.map Prod.fst, .dct m, .list (r :: rs))
    | .lst _ => .error (.valueError "Can not detect headers because 1st row not a dict, supply headers manually")

/-- Concatenation of serialized rows. -/
def strConcat : List String → String
  | [] => ""
  | s :: ss => s ++ strConcat ss

/-- A `DictWriter` data line: each registered field name looked up in the row
dict, missing ones filled with the `None` restval (written as the empty
field). -/
def dctLine (d : Dialect) (fns : List String) (r : List (String × String)) : String :=
  writeRow d (fns.map (fun k => (List.lookup k r).getD ""))

/-- `DictWriter.writerow`: with `extrasaction='raise'` a key outside the
registered field names raises `ValueError` (message abbreviated; the library
appends the offending keys); calling it on a non-dict raises
`AttributeError` (`rowdict.keys()` on a list). -/
def writerowDict (d : Dialect) (fns : List String) : WRow → Except PyExc String
  | .lst _ => .error .attributeError
  | .dct r =>
    if r.any (fun p => !(fns.contains p.1)) then
      .error (.valueError "dict contains fields not in fieldnames")
    else .ok (dctLine d fns r)

/-- `csv.writer.writerow` on a wrapper row: a list serializes its fields; a
dict iterates as its keys (Python iteration over a dict yields keys). -/
def writerowList (d : Dialect) : WRow → String
  | .lst r => writeRow d r
  | .dct r => writeRow d (r.map Prod.fst)

/-- One `writer.writerow(line)` call, dispatched on the writer kind. -/
def writerowOf (d : Dialect) (asdict : Bool) (fns : List String) (r : WRow) : Except PyExc String :=
  if asdict then writerowDict d fns r else .ok (writerowList d r)

/-- The `for line in rows: writer.writerow(line)` loop: serialized output up
to the first failing row, plus the exception if one was raised. -/
def writeLoop (d : Dialect) (asdict : Bool) (fns : List String) : List WRow → String × Option PyExc
  | [] => ("", none)
  | r :: rs =>
    match writerowOf d asdict fns r with
    | .error e => ("", some e)
    | .ok line =>
      let p := writeLoop d asdict fns rs
      (line ++ p.1, p.2)

/-- The header-inference phase of `writelines` (lines 301-308): when `asdict`
is truthy and no headers are set, run `_detect_headers_before_write`, raise
the wrapper `Error` on a falsy first line (the source appends the repr of the
value to this message), and install the detected headers on the session. -/
def inferPhase (s : Session) (rows : RowsInput) (asdict : Bool) :
    Except PyExc (Session × RowsInput × Option WRow) :=
  if asdict && !hasHeadersB s.headers then
    match detectHeadersBeforeWrite rows with
    | .error e => .error e
    | .ok (hs, first, rest) =>
      if !wrowTruthy first then
        .error (.wrapperError "After header detection from rows= first_line has no data!")
      else .ok ({ s with headers := some hs }, rest, some first)
  else .ok (s, rows, none)

/-- `writer.writerow(first_line)` for a generator input (lines 318-322): the
placeholder `None` makes `csv.writer` raise `csv.Error` (`iterable expected`)
and `DictWriter` raise `AttributeError` (`None.keys()`); a real first line is
serialized by the active writer. -/
def writeFirst (d : Dialect) (asdict : Bool) (fns : List String)
    (rows2 : RowsInput) (firstLine : Option WRow) : Except PyExc String :=
  match rows2 with
  | .list _ => .ok ""
  | .gen _ =>
    match firstLine with
    | none => .error (if asdict then .attributeError else .csvError "iterable expected, not NoneType")
    | some w => writerowOf d asdict fns w

/-- The body of `writelines` once headers are settled: `tsv.writer` raises
`FileExistsError` before opening when the destination exists without
`overwrite` (lines 257-260); constructing a `DictWriter` without `fieldnames`
would raise `TypeError` (unreachable: inference always ends with truthy
headers or raises first, which also leaves the explicit
`csv.Error('No headers set - write prohibited! ...')` guard on line 313
unreachable); then the header row, the saved generator first line, and the
remaining rows are written.  Result: the text written to the destination
before any failure, and the raised exception if one occurred. -/
def writeBody (s2 : Session) (rows2 : RowsInput) (firstLine : Option WRow)
    (asdict overwrite : Bool) : String × Option PyExc :=
  if s2.fileIsExists && !overwrite then ("", some .fileExistsError)
  else if asdict && !hasHeadersB s2.headers then ("", some .typeError)
  else
    let fns := s2.headers.getD []
    let headerOut := if hasHeadersB s2.headers && asdict then writeRow s2.dialect fns else ""
    match writeFirst s2.dialect asdict fns rows2 firstLine with
    | .error e => (headerOut, some e)
    | .ok firstOut =>
      let p := writeLoop s2.dialect asdict fns (rowsList rows2)
      (headerOut ++ firstOut ++ p.1, p.2)

/-- `tsv.writelines` (lines 300-328): header inference, then the write body.
The returned string is the content that reached the destination. -/
def writelines (s : Session) (rows : RowsInput) (asdict overwrite : Bool) :
    String × Option PyExc :=
  match inferPhase s rows asdict with
  | .error e => ("", some e)
  | .ok (s2, rows2, firstLine) => writeBody s2 rows2 firstLine asdict overwrite

/-- Final destination content after a write: a file opened with mode `w` is
truncated, so it holds exactly the written text; an in-memory `StringIO`
source is written from position 0, overwriting its former content in place,
so `getvalue()` is the written text followed by any longer former suffix. -/
def destContent (s : Session) (written : String) : String :=
  match s.text with
  | some t => written ++ String.mk (t.data.drop written.data.length)
  | none => written

/-- The module docstring's in-memory round-trip example (the ЗАПИСЬ text):
two tab-separated data lines. -/
def docText : String :=
  "base\tparams\tbasekey1\tbasevalue1\nbase\tparams\tbasekey2\tbasevalue2"

/-- A session for a filename that does not exist yet (a fresh write target),
all other parameters at their defaults. -/
def freshFileSession : Session :=
  { filename := some "out.tsv"
    fileIsExists := false
    text := none
    dialect := excelTab
    headers := none
    headersIsFirstLine := true }

/-- A session for a filename that already exists on disk, all other parameters
at their defaults. -/
def existingFileSession : Session :=
  { filename := some "out.tsv"
    fileIsExists := true
    text := none
    dialect := excelTab
    headers := none
    headersIsFirstLine := true }

/-! ### Helper lemmas -/

theorem strAppendEmptyStr (s : String) : s ++ "" = s := String.append_empty s

theorem memMapFstContains (r : List (String × String)) :
    ∀ p ∈ r, (r.map Prod.fst).contains p.1 = true := by
  intro p hp
  exact List.elem_eq_true_of_mem (List.mem_map_of_mem Prod.fst hp)

theorem writerowDictOk (d : Dialect) (fns : List String) (r : List (String × String))
    (h : ∀ p ∈ r, fns.contains p.1 = true) :
    writerowDict d fns (WRow.dct r) = .ok (dctLine d fns r) := by
  have h' : (r.any fun p => !(fns.contains p.1)) = false := by
    rw [List.any_eq_false]
    intro p hp
    rw [h p hp]
    decide
  simp only [writerowDict]
  rw [h']
  simp

theorem writeLoopDct (d : Dialect) (fns : List String) (rest : List (List (String × String)))
    (h : ∀ r ∈ rest, ∀ p ∈ r, fns.contains p.1 = true) :
    writeLoop d true fns (rest.map WRow.dct) = (strConcat (rest.map (dctLine d fns)), none) := by
  induction rest with
  | nil => rfl
  | cons r rs ih =>
    simp only [List.map_cons, writeLoop, writerowOf, if_pos]
    rw [writerowDictOk d fns r (h r (by simp))]
    rw [ih (fun r2 hr2 => h r2 (by simp [hr2]))]
    rfl

theorem writeLoopLst (d : Dialect) (fns : List String) (rs : List (List String)) :
    writeLoop d false fns (rs.map WRow.lst) = (strConcat (rs.map (writeRow d)), none) := by
  induction rs with
  | nil => rfl
  | cons r rs2 ih =>
    simp only [List.map_cons, writeLoop, writerowOf, if_neg, writerowList]
    rw [ih]
    rfl

theorem wlExistsNoOverwrite (s : Session) (rows : RowsInput) (h : s.fileIsExists = true) :
    writelines s rows false false = ("", some PyExc.fileExistsError) := by
  simp [writelines, inferPhase, writeBody, h]

theorem wlListNoHeaders (s : Session) (rs : List (List String)) :
    writelines s (.list (rs.map WRow.lst)) false true
      = (strConcat (rs.map (writeRow s.dialect)), none) := by
  simp [writelines, inferPhase, writeBody, writeFirst, rowsList, writeLoopLst]

theorem iterListSplit (fname : Option String) (m : String) (post : RowStream)
    (pre : List (List String)) :
    ∀ n : Nat,
      iterList fname n (pre.map Except.ok ++ Except.error m :: post)
        = (pre.map RowOut.lst, ReadEnd.exit (readErrMsg fname (n + pre.length + 1) m)) := by
  induction pre with
  | nil => intro n; rfl
  | cons r pre2 ih =>
    intro n
    simp only [List.map_cons, List.cons_append, iterList, List.append_eq]
    rw [ih (n + 1)]
    have hn : n + 1 + pre2.length + 1 = n + (pre2.length + 1) + 1 := by omega
    simp [hn]

/-! ### Claims -/

/-- Claim C1.  The claim states that header detection applies in record-mode
only, so a list-mode read with no explicit headers yields every data row.
The code contradicts it (and the module docstring's list-mode examples):
`readlines` calls `_detect_headers` in list-mode too, so with the default
`headers_is_first_line=True` the first non-blank row is consumed as headers
and never yielded: reading the two-row text yields only the second row. -/
theorem c1_list_mode_read_consumes_first_line :
    readlines (mkTextSession "a\tb\nc\td") false (textToStream excelTab "a\tb\nc\td")
      = ([RowOut.lst ["c", "d"]], ReadEnd.normal) ∧
    (readlines (mkTextSession "a\tb\nc\td") false (textToStream excelTab "a\tb\nc\td")).1
      ≠ [RowOut.lst ["a", "b"], RowOut.lst ["c", "d"]] := by
  constructor
  · rfl
  · decide

/-- Claim C2.  The round-trip `write(read(text)) == text` fails on the module
docstring's own example text: the list-mode read consumes the first line as
headers, and the rewrite of what was read emits a CRLF-terminated single
line, which differs from the original two-LF-separated lines. -/
theorem c2_round_trip_fails_on_docstring_example :
    (readlines (mkTextSession docText) false (textToStream excelTab docText)).1
      = [RowOut.lst ["base", "params", "basekey2", "basevalue2"]] ∧
    writelines (mkTextSession "")
        (.list [WRow.lst ["base", "params", "basekey2", "basevalue2"]]) false true
      = ("base\tparams\tbasekey2\tbasevalue2\r\n", none) ∧
    "base\tparams\tbasekey2\tbasevalue2\r\n" ≠ docText := by
  refine ⟨rfl, rfl, ?_⟩
  decide

/-- Claim C3.  On a record-mode read of an exhausted source (empty text, or
blank lines only), `_detect_headers` dies in `next(reader)` with
`StopIteration`, which PEP 479 converts to `RuntimeError` inside the
`readlines` generator; the wrapper's own
`Error('Absolutely empty file - no data lines!')` is unreachable, so no
`HeaderError` is raised, contradicting the claim. -/
theorem c3_empty_source_read_raises_runtime_not_header_error :
    readlines (mkTextSession "") true (textToStream excelTab "")
      = ([], ReadEnd.exc PyExc.runtimeError) ∧
    readlines (mkTextSession "\n\n") true (textToStream excelTab "\n\n")
      = ([], ReadEnd.exc PyExc.runtimeError) := by
  exact ⟨rfl, rfl⟩

/-- Claim C4.  Mapping-mode write from a generator with headers initially
unset: the first element consumed by header inference is still written as a
data row immediately after the header row, and every subsequent generator row
is serialized in order. -/
theorem c4_generator_mapping_write_keeps_consumed_first_row
    (s : Session) (first : List (String × String)) (rest : List (List (String × String)))
    (h0 : hasHeadersB s.headers = false) (h1 : first ≠ [])
    (h2 : ∀ r ∈ rest, ∀ p ∈ r, (first.map Prod.fst).contains p.1 = true) :
    writelines s (.gen (WRow.dct first :: rest.map WRow.dct)) true true
      = (writeRow s.dialect (first.map Prod.fst)
          ++ dctLine s.dialect (first.map Prod.fst) first
          ++ strConcat (rest.map (dctLine s.dialect (first.map Prod.fst))), none) := by
  have hne : first.isEmpty = false := by
    cases first with
    | nil => exact absurd rfl h1
    | cons a l => rfl
  have hmap : (first.map Prod.fst).isEmpty = false := by
    cases first with
    | nil => exact absurd rfl h1
    | cons a l => rfl
  have hT : wrowTruthy (WRow.dct first) = true := by
    simp [wrowTruthy, hne]
  have hH : hasHeadersB (some (first.map Prod.fst)) = true := by
    simp [hasHeadersB, hmap]
  have hinfer : inferPhase s (.gen (WRow.dct first :: rest.map WRow.dct)) true
      = .ok ({ s with headers := some (first.map Prod.fst) },
             .gen (rest.map WRow.dct), some (WRow.dct first)) := by
    simp [inferPhase, h0, detectHeadersBeforeWrite, hT]
  have hfirstrow : writerowDict s.dialect (first.map Prod.fst) (WRow.dct first)
      = .ok (dctLine s.dialect (first.map Prod.fst) first) :=
    writerowDictOk _ _ _ (memMapFstContains first)
  have hloop := writeLoopDct s.dialect (first.map Prod.fst) rest h2
  simp only [writelines, hinfer]
  simp [writeBody, hH, writeFirst, writerowOf, rowsList, hfirstrow, hloop]

/-- Claim C5.  A generator passed to `writelines` without header inference
(list-mode, or headers already set) hits the unconditional
`writer.writerow(first_line)` with the placeholder `None`: `csv.writer`
raises `csv.Error('iterable expected...')`, `DictWriter` raises
`AttributeError`, so the generator's rows are never serialized — only a
header row (in mapping-mode) reaches the destination. -/
theorem c5_generator_placeholder_none_write_fails
    (s : Session) (rs : List WRow) (asdict ov : Bool)
    (h1 : asdict = false ∨ hasHeadersB s.headers = true)
    (h2 : s.fileIsExists = false ∨ ov = true) :
    writelines s (.gen rs) asdict ov
      = (if asdict then writeRow s.dialect (s.headers.getD []) else "",
         some (if asdict then PyExc.attributeError
               else PyExc.csvError "iterable expected, not NoneType")) := by
  cases asdict with
  | false =>
    simp only [writelines, inferPhase, Bool.false_and, Bool.false_eq_true, if_false]
    cases h2 with
    | inl hf => simp [writeBody, hf, writeFirst]
    | inr ho => simp [writeBody, ho, writeFirst]
  | true =>
    cases h1 with
    | inl h => exact absurd h (by simp)
    | inr hh =>
      simp only [writelines, inferPhase, hh, Bool.not_true, Bool.and_false,
        Bool.false_eq_true, if_false]
      cases h2 with
      | inl hf => simp [writeBody, hf, hh, writeFirst]
      | inr ho => simp [writeBody, ho, hh, writeFirst]

/-- Claim C4 witness: a two-row generator with the headers inferred from the
first row; the consumed first row appears right after the header row. -/
theorem c4_witness :
    writelines freshFileSession
        (.gen [WRow.dct [("a", "1"), ("b", "2")], WRow.dct [("a", "3"), ("b", "4")]])
        true true
      = ("a\tb\r\n1\t2\r\n3\t4\r\n", none) :=
  c4_generator_mapping_write_keeps_consumed_first_row freshFileSession
    [("a", "1"), ("b", "2")] [[("a", "3"), ("b", "4")]] rfl (by decide) (by decide)

/-- Claim C5 witness: a generator written in list-mode hits the placeholder
`None` row and the write fails before serializing the generator's row. -/
theorem c5_witness :
    writelines (mkTextSession "") (.gen [WRow.lst ["a"]]) false true
      = ("", some (PyExc.csvError "iterable expected, not NoneType")) :=
  c5_generator_placeholder_none_write_fails (mkTextSession "") [WRow.lst ["a"]]
    false true (Or.inl rfl) (Or.inr rfl)

/-- Claim C6, counterexample.  Supplying both a file path and in-memory text
does not always raise: the guard `if filename and text:` tests Python
truthiness, so the empty-string path `filename=""` together with `text="x"`
slips past both checks and construction succeeds with both sources set. -/
theorem c6_counterexample_empty_path_with_text :
    tsvInit (some "") (some "x") false none true
      = InitResult.ok { filename := some "", fileIsExists := true, text := some "x",
                        dialect := excelTab, headers := none, headersIsFirstLine := true } := by
  rfl

/-- Claim C6, amended.  Supplying both a non-empty file path and non-empty
in-memory text raises the configuration error; supplying neither raises it as
well; for every choice of exactly one of the two (with a valid text type),
construction succeeds. -/
theorem c6_exactly_one_source_amended (f t : Option String) (fsE : Bool)
    (hs : Option (List String)) (hifl : Bool) :
    (truthyStr f = true → truthyStr t = true →
      tsvInit f t fsE hs hifl
        = .err (PyExc.wrapperError "You must provide \"filename\" or \"text\" only!")) ∧
    (f = none → t = none →
      tsvInit f t fsE hs hifl
        = .err (PyExc.wrapperError "You did not provide \"filename\" or \"text\"!")) ∧
    ((f.isSome = true ∧ t = none) ∨ (f = none ∧ t.isSome = true) →
      ∃ s : Session, tsvInit f t fsE hs hifl = .ok s) := by
  refine ⟨?_, ?_, ?_⟩
  · intro hf ht
    simp [tsvInit, hf, ht]
  · rintro rfl rfl
    rfl
  · rintro (⟨hf, rfl⟩ | ⟨rfl, ht⟩)
    · cases f with
      | none => simp at hf
      | some a =>
        refine ⟨{ filename := some a, fileIsExists := fsE, text := none,
                  dialect := excelTab, headers := hs, headersIsFirstLine := hifl }, ?_⟩
        simp [tsvInit, truthyStr]
    · cases t with
      | none => simp at ht
      | some b =>
        refine ⟨{ filename := none, fileIsExists := true, text := some b,
                  dialect := excelTab, headers := hs, headersIsFirstLine := hifl }, ?_⟩
        simp [tsvInit, truthyStr]

/-- Claim C6 witness: the amended statement applied at concrete inputs. -/
theorem c6_witness :
    (tsvInit (some "f.tsv") (some "txt") false none true
      = InitResult.err (PyExc.wrapperError "You must provide \"filename\" or \"text\" only!")) ∧
    (tsvInit none none false none true
      = InitResult.err (PyExc.wrapperError "You did not provide \"filename\" or \"text\"!")) ∧
    (∃ s : Session, tsvInit (some "f.tsv") none false none true = InitResult.ok s) :=
  ⟨(c6_exactly_one_source_amended (some "f.tsv") (some "txt") false none true).1
      (by decide) (by decide),
   (c6_exactly_one_source_amended none none false none true).2.1 rfl rfl,
   (c6_exactly_one_source_amended (some "f.tsv") none false none true).2.2
      (Or.inl ⟨rfl, rfl⟩)⟩

/-- Claim C7.  Writing over an existing destination without overwrite
permission raises `FileExistsError` before anything is written; with
`overwrite=True` the write succeeds and the destination holds exactly the
newly serialized rows. -/
theorem c7_exists_guard_and_overwrite
    (s : Session) (rows : RowsInput) (rs : List (List String))
    (h : s.fileIsExists = true) :
    writelines s rows false false = ("", some PyExc.fileExistsError) ∧
    writelines s (.list (rs.map WRow.lst)) false true
      = (strConcat (rs.map (writeRow s.dialect)), none) :=
  ⟨wlExistsNoOverwrite s rows h, wlListNoHeaders s rs⟩

/-- Claim C7 witness: the guard and the overwrite path at concrete inputs. -/
theorem c7_witness :
    writelines existingFileSession (.list []) false false
      = ("", some PyExc.fileExistsError) ∧
    writelines existingFileSession (.list [WRow.lst ["x", "y"]]) false true
      = ("x\ty\r\n", none) :=
  c7_exists_guard_and_overwrite existingFileSession (.list []) [["x", "y"]] rfl

/-- Claim C8.  Mapping-mode write over a list with no explicit headers: the
first row's key order becomes the header set, a header row is emitted, then
the first row as data, then the remaining rows; and whenever the first
outgoing row is not a mapping, the write fails with the `ValueError` telling
the caller to supply headers. -/
theorem c8_list_mapping_write_infers_and_errors
    (s : Session) (first : List (String × String)) (rest : List (List (String × String)))
    (h0 : hasHeadersB s.headers = false) (h1 : s.fileIsExists = false)
    (h2 : first ≠ [])
    (h3 : ∀ r ∈ rest, ∀ p ∈ r, (first.map Prod.fst).contains p.1 = true) :
    writelines s (.list (WRow.dct first :: rest.map WRow.dct)) true false
      = (writeRow s.dialect (first.map Prod.fst)
          ++ (dctLine s.dialect (first.map Prod.fst) first
              ++ strConcat (rest.map (dctLine s.dialect (first.map Prod.fst)))), none) ∧
    (∀ (l : List String) (rest2 : List WRow),
      writelines s (.list (WRow.lst l :: rest2)) true false
        = ("", some (PyExc.valueError
            "Can not detect headers because 1st row not a dict, supply headers manually"))) := by
  constructor
  · have hT : wrowTruthy (WRow.dct first) = true := by
      cases first with
      | nil => exact absurd rfl h2
      | cons a l => rfl
    have hH : hasHeadersB (some (first.map Prod.fst)) = true := by
      cases first with
      | nil => exact absurd rfl h2
      | cons a l => rfl
    have hinfer : inferPhase s (.list (WRow.dct first :: rest.map WRow.dct)) true
        = .ok ({ s with headers := some (first.map Prod.fst) },
               .list (WRow.dct first :: rest.map WRow.dct), some (WRow.dct first)) := by
      simp [inferPhase, h0, detectHeadersBeforeWrite, hT]
    have hfirstrow : writerowDict s.dialect (first.map Prod.fst) (WRow.dct first)
        = .ok (dctLine s.dialect (first.map Prod.fst) first) :=
      writerowDictOk _ _ _ (memMapFstContains first)
    have hloop := writeLoopDct s.dialect (first.map Prod.fst) rest h3
    simp only [writelines, hinfer]
    simp [writeBody, hH, h1, writeFirst, rowsList, writeLoop, writerowOf,
      hfirstrow, hloop, strAppendEmptyStr]
  · intro l rest2
    simp [writelines, inferPhase, h0, detectHeadersBeforeWrite]

/-- Claim C8 witness: the claim's own example `{"a": "1", "b": "2"}` and a
non-mapping first row. -/
theorem c8_witness :
    writelines freshFileSession
        (.list [WRow.dct [("a", "1"), ("b", "2")], WRow.dct [("a", "3"), ("b", "4")]])
        true false
      = ("a\tb\r\n1\t2\r\n3\t4\r\n", none) ∧
    writelines freshFileSession (.list [WRow.lst ["1", "2"]]) true false
      = ("", some (PyExc.valueError
          "Can not detect headers because 1st row not a dict, supply headers manually")) := by
  have h := c8_list_mapping_write_infers_and_errors freshFileSession
    [("a", "1"), ("b", "2")] [[("a", "3"), ("b", "4")]] rfl rfl (by decide) (by decide)
  exact ⟨h.1, h.2 ["1", "2"] []⟩

/-- Claim C9.  A session built from in-memory text is marked as existing, so
`writelines` on an in-memory destination raises `FileExistsError` unless
`overwrite=True` is passed, even though no file is involved. -/
theorem c9_text_session_marked_existing
    (t : String) (fsE : Bool) (rows : RowsInput) (rs : List (List String)) :
    tsvInit none (some t) fsE none true = InitResult.ok (mkTextSession t) ∧
    (mkTextSession t).fileIsExists = true ∧
    writelines (mkTextSession t) rows false false = ("", some PyExc.fileExistsError) ∧
    (writelines (mkTextSession t) (.list (rs.map WRow.lst)) false true).2 = none := by
  refine ⟨rfl, rfl, wlExistsNoOverwrite (mkTextSession t) rows rfl, ?_⟩
  rw [wlListNoHeaders]

/-- Claim C10.  A parser-level `csv.Error` on any data row during reading is
never surfaced as a normal exception: `readlines` yields the rows before it
and then terminates the process (`sys.exit`) with a message naming the source
file and the 1-based line number of the malformed row.  Stated with
`headers_is_first_line=False` so that every line of the source is a data
row. -/
theorem c10_parse_error_terminates_process
    (f m : String) (pre : List (List String)) (post : RowStream) :
    readlines
        { filename := some f, fileIsExists := true, text := none, dialect := excelTab,
          headers := none, headersIsFirstLine := false } false
        (pre.map Except.ok ++ Except.error m :: post)
      = (pre.map RowOut.lst,
         ReadEnd.exit ("File read error: file " ++ f ++ ", line "
            ++ toString (pre.length + 1) ++ ": " ++ m)) := by
  have h := iterListSplit (some f) m post pre 0
  simp only [readlines, readlinesList, detectHeadersList, hasHeadersB,
    Bool.not_false, if_true, Bool.false_eq_true, if_false]
  rw [h]
  simp [readErrMsg, pyStrOpt]

end Tsv
